import Mathlib

deriving instance DecidableEq for Except

/-!
Verification development for the whisperGUI application state controller
(whisperGUI.py).  The Python code is shallowly embedded: the prompt-profile
store (class PromptManager), the transcription-job controller and the modal
window manager are modelled as pure Lean functions over explicit state.

Python dicts are modelled as association lists that preserve insertion
order: assignment to an existing key overwrites in place, assignment to a
fresh key appends, and deletion removes the entry.
-/

namespace WhisperGUI

/-! ### Python primitives -/

/-- Model of Python dict as an insertion-ordered association list. -/
abbrev PyDict := List (String × String)

/-- Membership test of a key, as in Python `k in d`. -/
def dictContains (d : PyDict) (k : String) : Bool :=
  d.any (fun p => p.1 == k)

/-- Python `d[k] = v`: overwrite in place when the key exists, append
otherwise. -/
def dictSet (d : PyDict) (k v : String) : PyDict :=
  if dictContains d k then
    d.map (fun p => if p.1 == k then (k, v) else p)
  else
    d ++ [(k, v)]

/-- Python `del d[k]` after the key is known to exist, and the
`suppress(KeyError)` variant: remove every entry with the key. -/
def dictDel (d : PyDict) (k : String) : PyDict :=
  d.filter (fun p => p.1 != k)

/-- Python `d.keys()` in insertion order. -/
def dictKeys (d : PyDict) : List String :=
  d.map Prod.fst

/-- Python `d.get(k)` / `d[k]` lookup. -/
def dictGet? (d : PyDict) (k : String) : Option String :=
  (d.find? (fun p => p.1 == k)).map Prod.snd

/-- Python `str.strip()`: remove leading and trailing whitespace. -/
def pyStrip (s : String) : String :=
  ⟨((s.toList.dropWhile Char.isWhitespace).reverse.dropWhile
      Char.isWhitespace).reverse⟩

/-- Lexicographic code-point comparison of character lists, the order
Python uses to compare strings. -/
def charListLe : List Char → List Char → Bool
  | [], _ => true
  | _ :: _, [] => false
  | a :: as, b :: bs =>
    if a.toNat < b.toNat then true
    else if b.toNat < a.toNat then false
    else charListLe as bs

/-- Python string comparison `a <= b`. -/
def strLe (a b : String) : Bool := charListLe a.toList b.toList

/-- Python `sorted` on a list of strings (ascending lexical order).
Insertion sort is extensionally the same function on duplicate-free
inputs. -/
def pySorted (l : List String) : List String :=
  List.insertionSort (fun a b => strLe a b = true) l

/-! ### The prompt-profile dropdown (sg.Combo) and its window

Only the behaviour the PromptManager uses is modelled: the option list,
the current value (`get`), `update(value=..., values=...)` and
`write_event_value` on the owning window, recorded as a list of emitted
selection events. -/

/-- Model of the sg.Combo dropdown element: its option list and the
currently selected value. -/
structure Combo where
  values : List String
  value : String
deriving DecidableEq, Repr

/-! ### PromptManager (whisperGUI.py:1540-1846) -/

/-- State of a PromptManager instance together with the slice of the
settings store it owns.  `saved_prompt_profiles` is the in-memory dict of
profiles; `settings_entry` is the mapping currently persisted under the
saved-prompts settings key; `dropdown` is the tracked profile dropdown
when one is set; `emitted_events` records the values sent with
`write_event_value` on the dropdown key, in order. -/
structure PromptManager where
  saved_prompt_profiles : PyDict
  settings_entry : PyDict
  dropdown : Option Combo
  emitted_events : List String
deriving DecidableEq, Repr

/-- PromptManager._unsaved_prompt_profile_name. -/
def unsaved_prompt_profile_name : String := "(None)"

/-- PromptManager.prompt_profile_names: the unsaved profile name followed
by the saved profile names sorted ascending. -/
def prompt_profile_names (pm : PromptManager) : List String :=
  unsaved_prompt_profile_name :: pySorted (dictKeys pm.saved_prompt_profiles)

/-- PromptManager.saved_prompt_profile_names: saved names sorted
ascending. -/
def saved_prompt_profile_names (pm : PromptManager) : List String :=
  pySorted (dictKeys pm.saved_prompt_profiles)

/-- Error message used by add_prompt_profile and edit_prompt_profile for
a blank name. -/
def errBlankName : String :=
  "Invalid prompt name: name can't be empty or whitespace only." ++
    "\n\nPlease enter a new prompt name."

/-- Error message used by add_prompt_profile and edit_prompt_profile for
a name already in use. -/
def errNameInUse : String :=
  "Invalid prompt name: name already in use." ++
    "\n\nPlease enter a new prompt name."

/-- PromptManager._save_profiles_to_settings: write the current profile
mapping to the settings store. -/
def save_profiles_to_settings (pm : PromptManager) : PromptManager :=
  { pm with settings_entry := pm.saved_prompt_profiles }

/-- PromptManager._update_prompt_profile_dropdown: when a dropdown is
tracked, push the current profile-name list as its options, set its value
to the given new selection (or keep the current one when none is given),
and, exactly when a new selection is given, send a selection-changed
event carrying it. -/
def update_prompt_profile_dropdown (pm : PromptManager)
    (new_selected_profile : Option String) : PromptManager :=
  match pm.dropdown with
  | none => pm
  | some dd =>
    let selected := new_selected_profile.getD dd.value
    { pm with
        dropdown := some { values := prompt_profile_names pm
                           value := selected }
        emitted_events :=
          match new_selected_profile with
          | some v => pm.emitted_events ++ [v]
          | none => pm.emitted_events }

/-- PromptManager._save_profile: optionally delete the original profile
(suppressing a missing key), store the new name-to-prompt binding, write
the mapping to settings, then refresh the tracked dropdown — re-selecting
the new name when the edit's original name was the dropdown's current
selection, and keeping the selection otherwise. -/
def save_profile (pm : PromptManager) (profile_name profile_prompt : String)
    (original_profile_name : Option String) : PromptManager :=
  let d0 := match original_profile_name with
    | some o => dictDel pm.saved_prompt_profiles o
    | none => pm.saved_prompt_profiles
  let d1 := dictSet d0 profile_name profile_prompt
  let pm1 := save_profiles_to_settings { pm with saved_prompt_profiles := d1 }
  match pm.dropdown with
  | none => pm1
  | some dd =>
    match original_profile_name with
    | some o =>
      if o = dd.value then
        update_prompt_profile_dropdown pm1 (some profile_name)
      else
        update_prompt_profile_dropdown pm1 none
    | none => update_prompt_profile_dropdown pm1 none

/-- PromptManager.add_prompt_profile: reject a blank name or a name
already among the profile names (sentinel included); otherwise save the
profile.  Returns the success flag, the error message and the new
state. -/
def add_prompt_profile (pm : PromptManager)
    (profile_name profile_prompt : String) :
    (Bool × String) × PromptManager :=
  if pyStrip profile_name = "" then
    ((false, errBlankName), pm)
  else if (prompt_profile_names pm).contains profile_name then
    ((false, errNameInUse), pm)
  else
    ((true, ""), save_profile pm profile_name profile_prompt none)

/-- PromptManager.edit_prompt_profile: reject a blank new name, or a new
name that is already among the profile names while differing from the
original name; otherwise save the profile, deleting the original
entry. -/
def edit_prompt_profile (pm : PromptManager)
    (profile_name profile_prompt original_profile_name : String) :
    (Bool × String) × PromptManager :=
  let profile_name_changed := profile_name ≠ original_profile_name
  if pyStrip profile_name = "" then
    ((false, errBlankName), pm)
  else if (prompt_profile_names pm).contains profile_name ∧
      profile_name_changed then
    ((false, errNameInUse), pm)
  else
    ((true, ""),
      save_profile pm profile_name profile_prompt
        (some original_profile_name))

/-- PromptManager.delete_prompt_profile: `del` of the profile raises
KeyError when the name is absent; otherwise remove it, write the mapping
to settings and refresh the tracked dropdown — re-selecting the unsaved
profile when the deleted name was the dropdown's current selection. -/
def delete_prompt_profile (pm : PromptManager) (profile_name : String) :
    Except String PromptManager :=
  if dictContains pm.saved_prompt_profiles profile_name then
    let d1 := dictDel pm.saved_prompt_profiles profile_name
    let pm1 := save_profiles_to_settings
      { pm with saved_prompt_profiles := d1 }
    match pm.dropdown with
    | none => .ok pm1
    | some dd =>
      if profile_name = dd.value then
        .ok (update_prompt_profile_dropdown pm1
          (some unsaved_prompt_profile_name))
      else
        .ok (update_prompt_profile_dropdown pm1 none)
  else
    .error "KeyError"

/-- A PromptManager over a fresh settings store (no saved profiles),
optionally with a tracked dropdown. -/
def initPM (dropdown : Option Combo) : PromptManager :=
  { saved_prompt_profiles := []
    settings_entry := []
    dropdown := dropdown
    emitted_events := [] }

/-- Helper naming the store after the optional original-profile deletion
performed by save_profile. -/
def delOpt (d : PyDict) : Option String → PyDict
  | some o => dictDel d o
  | none => d

/-! ### Operation sequences on the prompt-profile store -/

/-- One user-level mutation of the prompt-profile store. -/
inductive POp where
  | add (name prompt : String)
  | edit (name prompt original : String)
  | del (name : String)
deriving DecidableEq, Repr

/-- Run one operation, keeping the prior state when delete raises. -/
def applyOp (pm : PromptManager) : POp → PromptManager
  | POp.add n p => (add_prompt_profile pm n p).2
  | POp.edit n p o => (edit_prompt_profile pm n p o).2
  | POp.del n =>
    match delete_prompt_profile pm n with
    | Except.ok pm' => pm'
    | Except.error _ => pm

/-- Run a sequence of operations left to right. -/
def applyOps (pm : PromptManager) (ops : List POp) : PromptManager :=
  ops.foldl applyOp pm

/-- An operation that does not edit with the sentinel as both the new
and the original profile name. -/
def goodOp : POp → Bool
  | POp.edit n _ o =>
    !(n == unsaved_prompt_profile_name && o == unsaved_prompt_profile_name)
  | _ => true

/-- Internal well-formedness of the store: the saved keys are
duplicate-free and never include the sentinel name. -/
def StoreInv (pm : PromptManager) : Prop :=
  (dictKeys pm.saved_prompt_profiles).Nodup ∧
    unsaved_prompt_profile_name ∉ dictKeys pm.saved_prompt_profiles

/-! ### Transcription job controller

Modelled from the spec: the Transcriber class lives in transcriber.py,
which is not among the provided sources — only its call sites in
whisperGUI.py are (the TRANSCRIBE_PROGRESS handler increments
num_tasks_done by one, the TRANSCRIBE_SUCCESS handler calls
done(success=True), the no-success terminal events call
done(success=False)).  The controller itself follows the spec's job
lifecycle: start captures the file count and a start timestamp and moves
to Running; done releases the worker handle, moves to Done and returns
the elapsed time, with an idempotent guard making a second call a no-op;
stop moves a Running job to Stopping. -/

/-- State of the transcription job lifecycle. -/
inductive JobState where
  | idle
  | running
  | stopping
  | done
deriving DecidableEq, Repr

/-- Modelled from the spec: the transcription job controller's state —
job state, total and completed task counts, the start timestamp and
whether a worker handle is held. -/
structure Transcriber where
  state : JobState
  num_tasks : Nat
  num_tasks_done : Nat
  started_at : Int
  worker_handle : Bool
deriving DecidableEq, Repr

/-- Modelled from the spec: start a job over the given files at the
given time — total count is the number of files, completed count is
reset to zero, the state becomes Running and a worker handle is held. -/
def Transcriber.start (files : List String) (now : Int) :
    Transcriber → Transcriber := fun _ =>
  { state := JobState.running
    num_tasks := files.length
    num_tasks_done := 0
    started_at := now
    worker_handle := true }

/-- One TRANSCRIBE_PROGRESS notification: whisperGUI.py increments
num_tasks_done by one. -/
def Transcriber.on_progress (tr : Transcriber) : Transcriber :=
  { tr with num_tasks_done := tr.num_tasks_done + 1 }

/-- Modelled from the spec: finish the job — when a job is Running or
Stopping, release the worker handle, move to Done and return the elapsed
time since start; when no job is live (idempotent guard) do nothing and
return none. -/
def Transcriber.done (tr : Transcriber) (success : Bool) (now : Int) :
    Option Int × Transcriber :=
  match tr.state with
  | JobState.running =>
    (some (now - tr.started_at),
      { tr with state := JobState.done, worker_handle := false })
  | JobState.stopping =>
    (some (now - tr.started_at),
      { tr with state := JobState.done, worker_handle := false })
  | _ => (none, tr)

/-! ### Modal window manager

Modelled from the spec: the ModalWindowManager class lives in
ext_PySimpleGUI.py, which is not among the provided sources — only its
call sites in whisperGUI.py are (track_modal_window after opening popup
windows, update once per dispatch-loop iteration).  Per the spec it
tracks candidate windows in order and, on each reconcile, drops closed
ones and makes the most-recently-tracked still-open window the single
modal window, clearing the flag from the other tracked windows. -/

/-- A top-level window as the modal manager sees it: an identity, an
open flag and an input-blocking (modal) flag. -/
structure TrackedWindow where
  id : Nat
  is_open : Bool
  is_modal : Bool
deriving DecidableEq, Repr

/-- All live-or-closed windows of the application, by value. -/
abbrev WindowWorld := List TrackedWindow

/-- Does the world contain an open window with this id? -/
def is_open_in (world : WindowWorld) (i : Nat) : Bool :=
  world.any (fun w => w.id == i && w.is_open)

/-- Modelled from the spec: the modal window manager's state — the ids
of tracked modal candidates in tracking order, most recent last. -/
structure ModalWindowManager where
  tracked : List Nat
deriving DecidableEq, Repr

/-- Modelled from the spec: register a window as a candidate for modal
focus. -/
def track_modal_window (m : ModalWindowManager) (i : Nat) :
    ModalWindowManager :=
  { tracked := m.tracked ++ [i] }

/-- Close the window with the given id; closing an absent or
already-closed window changes nothing. -/
def close_window (world : WindowWorld) (i : Nat) : WindowWorld :=
  world.map (fun w => if w.id == i then { w with is_open := false } else w)

/-- The tracked windows that are still open, in tracking order. -/
def live_tracked (m : ModalWindowManager) (world : WindowWorld) :
    List Nat :=
  m.tracked.filter (fun i => is_open_in world i)

/-- The most-recently-tracked still-open window, if any. -/
def most_recent_open (m : ModalWindowManager) (world : WindowWorld) :
    Option Nat :=
  (live_tracked m world).getLast?

/-- Modelled from the spec: reconcile (ModalWindowManager.update) —
drop closed windows from the tracked list, set the modal flag on the
most-recently-tracked still-open window and clear it from every other
tracked window; untracked windows are left alone. -/
def reconcile (m : ModalWindowManager) (world : WindowWorld) :
    ModalWindowManager × WindowWorld :=
  let live := live_tracked m world
  ({ tracked := live },
    world.map (fun w =>
      if live.contains w.id then
        { w with is_modal := decide (live.getLast? = some w.id) }
      else w))

/-- How many tracked windows are currently flagged modal. -/
def tracked_modal_count (m : ModalWindowManager) (world : WindowWorld) :
    Nat :=
  (world.filter (fun w => w.is_modal && m.tracked.contains w.id)).length

/-! ### Concrete states used by the witnesses -/

/-- A store holding exactly profile "A" with prompt "p1". -/
def pmA : PromptManager :=
  { saved_prompt_profiles := [("A", "p1")]
    settings_entry := [("A", "p1")]
    dropdown := none
    emitted_events := [] }

/-- The store after editing profile "A" into "B" with prompt "p2". -/
def pmB : PromptManager :=
  { saved_prompt_profiles := [("B", "p2")]
    settings_entry := [("B", "p2")]
    dropdown := none
    emitted_events := [] }

/-- The store holding profiles "A" and "B". -/
def pmAB : PromptManager :=
  { saved_prompt_profiles := [("A", "p1"), ("B", "p2")]
    settings_entry := [("A", "p1"), ("B", "p2")]
    dropdown := none
    emitted_events := [] }

/-- A store holding profile "A" with a bound dropdown selecting "A". -/
def pmSel : PromptManager :=
  { saved_prompt_profiles := [("A", "p1")]
    settings_entry := [("A", "p1")]
    dropdown := some { values := ["(None)", "A"], value := "A" }
    emitted_events := [] }

/-- An idle transcriber before any job. -/
def tr0 : Transcriber :=
  { state := JobState.idle
    num_tasks := 0
    num_tasks_done := 0
    started_at := 0
    worker_handle := false }

/-- Three open windows W1, W2, W3. -/
def world3 : WindowWorld :=
  [{ id := 1, is_open := true, is_modal := false },
   { id := 2, is_open := true, is_modal := false },
   { id := 3, is_open := true, is_modal := false }]

/-- A manager that tracked W1, W2, W3 in that order. -/
def mwm3 : ModalWindowManager :=
  track_modal_window (track_modal_window (track_modal_window
    { tracked := [] } 1) 2) 3

/-- The job state after starting over the given files at time t0 and
receiving k progress notifications. -/
def run_job (tr : Transcriber) (files : List String) (t0 : Int) (k : Nat) :
    Transcriber :=
  Transcriber.on_progress^[k] (Transcriber.start files t0 tr)

/-- The state pmSel reaches after deleting the selected profile "A". -/
def pmSelDel : PromptManager :=
  { saved_prompt_profiles := []
    settings_entry := []
    dropdown := some { values := ["(None)"], value := "(None)" }
    emitted_events := ["(None)"] }

/-! ### Dictionary lemmas -/

theorem dictContains_iff (d : PyDict) (k : String) :
    dictContains d k = true ↔ k ∈ dictKeys d := by
  simp [dictContains, dictKeys, List.any_eq_true, List.mem_map, beq_iff_eq]

theorem string_contains_iff (l : List String) (a : String) :
    l.contains a = true ↔ a ∈ l := by
  simp [List.contains_iff_exists_mem_beq, beq_iff_eq]

theorem dictKeys_dictDel (d : PyDict) (k : String) :
    dictKeys (dictDel d k) = (dictKeys d).filter (fun a => a ≠ k) := by
  induction d with
  | nil => rfl
  | cons hd tl ih =>
    by_cases h : hd.1 = k <;>
      simp [dictDel, dictKeys, List.filter_cons, h, bne, beq_iff_eq] at ih ⊢ <;>
      simpa [dictDel, dictKeys] using ih

theorem mem_dictKeys_dictDel (d : PyDict) (k a : String) :
    a ∈ dictKeys (dictDel d k) ↔ a ∈ dictKeys d ∧ a ≠ k := by
  rw [dictKeys_dictDel]
  simp [List.mem_filter]

theorem dictContains_dictDel_self (d : PyDict) (k : String) :
    dictContains (dictDel d k) k = false := by
  rw [← Bool.not_eq_true, dictContains_iff, mem_dictKeys_dictDel]
  simp

theorem nodup_dictKeys_dictDel (d : PyDict) (k : String)
    (h : (dictKeys d).Nodup) : (dictKeys (dictDel d k)).Nodup := by
  rw [dictKeys_dictDel]
  exact h.filter _

theorem dictKeys_dictSet_of_not_contains (d : PyDict) (k v : String)
    (h : dictContains d k = false) :
    dictKeys (dictSet d k v) = dictKeys d ++ [k] := by
  simp [dictSet, h, dictKeys]

theorem dictGet?_append_single (d : PyDict) (k v : String)
    (h : dictContains d k = false) :
    dictGet? (d ++ [(k, v)]) k = some v := by
  induction d with
  | nil => simp [dictGet?]
  | cons hd tl ih =>
    simp only [dictContains, List.any_cons, Bool.or_eq_false_iff] at h
    simp only [dictGet?, List.cons_append, List.find?, h.1]
    exact ih h.2

theorem dictGet?_map_overwrite (d : PyDict) (k v : String)
    (h : dictContains d k = true) :
    dictGet? (d.map (fun p => if p.1 == k then (k, v) else p)) k = some v := by
  induction d with
  | nil => simp [dictContains] at h
  | cons hd tl ih =>
    by_cases hk : (hd.1 == k) = true
    · simp [dictGet?, List.find?, hk]
    · have hk' : (hd.1 == k) = false := by simpa using hk
      simp only [dictContains, List.any_cons, hk', Bool.false_or] at h
      simp only [List.map_cons, hk', Bool.false_eq_true, if_false]
      simpa [dictGet?, List.find?, hk'] using ih h

theorem dictGet?_dictSet_self (d : PyDict) (k v : String) :
    dictGet? (dictSet d k v) k = some v := by
  unfold dictSet
  by_cases h : dictContains d k
  · rw [if_pos h]
    exact dictGet?_map_overwrite d k v h
  · rw [if_neg h]
    exact dictGet?_append_single d k v (by simpa using h)

theorem nodup_dictKeys_dictSet (d : PyDict) (k v : String)
    (hd : (dictKeys d).Nodup) (hk : dictContains d k = false) :
    (dictKeys (dictSet d k v)).Nodup := by
  rw [dictKeys_dictSet_of_not_contains d k v hk]
  have hmem : k ∉ dictKeys d := by
    rw [← dictContains_iff, hk]
    simp
  simp [List.nodup_append, hd, hmem]

theorem mem_dictKeys_dictSet_of_not_contains (d : PyDict) (k v a : String)
    (hk : dictContains d k = false) :
    a ∈ dictKeys (dictSet d k v) ↔ a ∈ dictKeys d ∨ a = k := by
  rw [dictKeys_dictSet_of_not_contains d k v hk]
  simp

/-! ### PromptManager structural lemmas -/

theorem update_dropdown_spp (pm : PromptManager) (o : Option String) :
    (update_prompt_profile_dropdown pm o).saved_prompt_profiles =
      pm.saved_prompt_profiles := by
  unfold update_prompt_profile_dropdown
  rcases hd : pm.dropdown with _ | dd <;> simp [hd]

theorem update_dropdown_settings (pm : PromptManager) (o : Option String) :
    (update_prompt_profile_dropdown pm o).settings_entry =
      pm.settings_entry := by
  unfold update_prompt_profile_dropdown
  rcases hd : pm.dropdown with _ | dd <;> simp [hd]

theorem save_profile_spp (pm : PromptManager) (n p : String)
    (o : Option String) :
    (save_profile pm n p o).saved_prompt_profiles =
      dictSet (delOpt pm.saved_prompt_profiles o) n p := by
  unfold save_profile save_profiles_to_settings
  rcases hd : pm.dropdown with _ | dd <;>
    rcases o with _ | oo <;>
    simp [hd, delOpt, update_dropdown_spp] <;>
    split_ifs <;>
    simp [update_dropdown_spp]

theorem save_profile_settings (pm : PromptManager) (n p : String)
    (o : Option String) :
    (save_profile pm n p o).settings_entry =
      (save_profile pm n p o).saved_prompt_profiles := by
  unfold save_profile save_profiles_to_settings
  rcases hd : pm.dropdown with _ | dd <;>
    rcases o with _ | oo <;>
    simp [hd, update_dropdown_spp, update_dropdown_settings] <;>
    split_ifs <;>
    simp [update_dropdown_spp, update_dropdown_settings]

theorem mem_prompt_profile_names (pm : PromptManager) (n : String) :
    n ∈ prompt_profile_names pm ↔
      n = unsaved_prompt_profile_name ∨
        n ∈ dictKeys pm.saved_prompt_profiles := by
  unfold prompt_profile_names pySorted
  rw [List.mem_cons, (List.perm_insertionSort _ _).mem_iff]

theorem dictKeys_dictSet_of_contains (d : PyDict) (k v : String)
    (h : dictContains d k = true) :
    dictKeys (dictSet d k v) = dictKeys d := by
  simp only [dictSet, h, if_true, dictKeys, List.map_map]
  apply List.map_congr_left
  intro p hp
  by_cases hk : (p.1 == k) = true
  · simp [Function.comp, hk, (beq_iff_eq.mp hk).symm]
  · simp [Function.comp, hk]

theorem mem_dictKeys_dictSet (d : PyDict) (k v a : String) :
    a ∈ dictKeys (dictSet d k v) ↔ a ∈ dictKeys d ∨ a = k := by
  rcases hc : dictContains d k with _ | _
  · rw [mem_dictKeys_dictSet_of_not_contains d k v a hc]
  · rw [dictKeys_dictSet_of_contains d k v hc]
    constructor
    · exact Or.inl
    · rintro (ha | rfl)
      · exact ha
      · exact (dictContains_iff d a).mp hc

theorem delete_ok_spp (pm : PromptManager) (n : String)
    (pm' : PromptManager)
    (h : delete_prompt_profile pm n = Except.ok pm') :
    pm'.saved_prompt_profiles = dictDel pm.saved_prompt_profiles n := by
  unfold delete_prompt_profile at h
  split_ifs at h with hc
  · rcases hd : pm.dropdown with _ | dd
    · simp only [hd] at h
      cases h
      rfl
    · simp only [hd] at h
      split_ifs at h <;>
        (cases h; simp [update_dropdown_spp, save_profiles_to_settings])

theorem delete_ok_settings (pm : PromptManager) (n : String)
    (pm' : PromptManager)
    (h : delete_prompt_profile pm n = Except.ok pm') :
    pm'.settings_entry = pm'.saved_prompt_profiles := by
  unfold delete_prompt_profile at h
  split_ifs at h with hc
  · rcases hd : pm.dropdown with _ | dd
    · simp only [hd] at h
      cases h
      rfl
    · simp only [hd] at h
      split_ifs at h <;>
        (cases h;
          simp [update_dropdown_spp, update_dropdown_settings,
            save_profiles_to_settings])

/-! ### Claim theorems for the prompt-profile store -/

/-- Claim C1: add_prompt_profile(name, prompt) fails with an InvalidName
error (success flag false, non-empty message) exactly when the name is
empty/whitespace-only or already among the profile names (sentinel
included); on failure the state is unchanged, and on success the profile
is stored under the name and the mapping is persisted to settings. -/
theorem add_prompt_profile_correct (pm : PromptManager)
    (name prompt : String)
    (ok : Bool) (msg : String) (pm' : PromptManager)
    (h : add_prompt_profile pm name prompt = ((ok, msg), pm')) :
    ((ok = false ∧ msg ≠ "") ↔
      (pyStrip name = "" ∨ name ∈ prompt_profile_names pm)) ∧
    (ok = false → pm' = pm) ∧
    (ok = true →
      msg = "" ∧
      dictGet? pm'.saved_prompt_profiles name = some prompt ∧
      pm'.settings_entry = pm'.saved_prompt_profiles) := by
  have hmsg1 : errBlankName ≠ "" := by decide
  have hmsg2 : errNameInUse ≠ "" := by decide
  unfold add_prompt_profile at h
  split_ifs at h with h1 h2
  · cases h
    exact ⟨by simp [h1, hmsg1], fun _ => rfl, by simp⟩
  · cases h
    have hm : name ∈ prompt_profile_names pm :=
      (string_contains_iff _ _).mp h2
    exact ⟨by simp [hm, hmsg2], fun _ => rfl, by simp⟩
  · cases h
    have hmem : name ∉ prompt_profile_names pm := by
      intro hm
      exact h2 ((string_contains_iff _ _).mpr hm)
    refine ⟨by simp [h1, hmem], by simp, fun _ => ⟨rfl, ?_, ?_⟩⟩
    · rw [save_profile_spp]
      exact dictGet?_dictSet_self _ _ _
    · exact save_profile_settings pm name prompt none

/-- Witness for add_prompt_profile_correct at the blank name "". -/
theorem add_prompt_profile_correct_witness :
    ((false = false ∧ errBlankName ≠ "") ↔
      (pyStrip "" = "" ∨ "" ∈ prompt_profile_names (initPM none))) ∧
    (false = false → initPM none = initPM none) ∧
    (false = true →
      errBlankName = "" ∧
      dictGet? (initPM none).saved_prompt_profiles "" = some "x" ∧
      (initPM none).settings_entry =
        (initPM none).saved_prompt_profiles) :=
  add_prompt_profile_correct (initPM none) "" "x" false errBlankName
    (initPM none) (by decide)

/-- Claim C2 fails as stated: deleting an absent profile is not a silent
no-op — the code runs `del` on the dict, which raises KeyError. -/
theorem delete_prompt_profile_absent_raises :
    delete_prompt_profile (initPM none) "A" = Except.error "KeyError" := by
  decide

/-- Claim C2 (amended): delete_prompt_profile(name) removes the profile
with that name when it exists; when no profile with that name exists the
call raises KeyError instead of being a silent no-op. -/
theorem delete_prompt_profile_correct (pm : PromptManager)
    (name : String) :
    (dictContains pm.saved_prompt_profiles name = true →
      ∃ pm', delete_prompt_profile pm name = Except.ok pm' ∧
        pm'.saved_prompt_profiles =
          dictDel pm.saved_prompt_profiles name ∧
        dictContains pm'.saved_prompt_profiles name = false) ∧
    (dictContains pm.saved_prompt_profiles name = false →
      delete_prompt_profile pm name = Except.error "KeyError") := by
  constructor
  · intro hc
    have hdel := dictContains_dictDel_self pm.saved_prompt_profiles name
    unfold delete_prompt_profile save_profiles_to_settings
    rw [if_pos hc]
    rcases hd : pm.dropdown with _ | dd
    · simp only [hd]
      exact ⟨_, rfl, rfl, hdel⟩
    · simp only [hd]
      by_cases hv : name = dd.value
      · rw [if_pos hv]
        refine ⟨_, rfl, ?_, ?_⟩ <;> simp [update_dropdown_spp, hdel]
      · rw [if_neg hv]
        refine ⟨_, rfl, ?_, ?_⟩ <;> simp [update_dropdown_spp, hdel]
  · intro hc
    unfold delete_prompt_profile
    rw [if_neg (by simp [hc])]

/-- Witness for delete_prompt_profile_correct: deleting the existing
profile "A" succeeds and removes it. -/
theorem delete_prompt_profile_correct_witness :
    ∃ pm', delete_prompt_profile pmA "A" = Except.ok pm' ∧
      pm'.saved_prompt_profiles = dictDel pmA.saved_prompt_profiles "A" ∧
      dictContains pm'.saved_prompt_profiles "A" = false :=
  (delete_prompt_profile_correct pmA "A").1 (by decide)

/-- Claim C3: edit_prompt_profile(name, prompt, original) fails with an
InvalidName error exactly when the new name is blank or is an existing
profile name different from the original; otherwise it atomically
removes the original entry and stores name mapped to prompt. -/
theorem edit_prompt_profile_correct (pm : PromptManager)
    (name prompt original : String)
    (ok : Bool) (msg : String) (pm' : PromptManager)
    (h : edit_prompt_profile pm name prompt original = ((ok, msg), pm')) :
    ((ok = false ∧ msg ≠ "") ↔
      (pyStrip name = "" ∨
        (name ∈ prompt_profile_names pm ∧ name ≠ original))) ∧
    (ok = false → pm' = pm) ∧
    (ok = true →
      msg = "" ∧
      pm'.saved_prompt_profiles =
        dictSet (dictDel pm.saved_prompt_profiles original) name prompt ∧
      dictGet? pm'.saved_prompt_profiles name = some prompt ∧
      (name ≠ original →
        original ∉ dictKeys pm'.saved_prompt_profiles)) := by
  have hmsg1 : errBlankName ≠ "" := by decide
  have hmsg2 : errNameInUse ≠ "" := by decide
  simp only [edit_prompt_profile] at h
  split_ifs at h with h1 h2
  · cases h
    exact ⟨by simp [h1, hmsg1], fun _ => rfl, by simp⟩
  · cases h
    have hm : name ∈ prompt_profile_names pm :=
      (string_contains_iff _ _).mp h2.1
    exact ⟨by simp [hm, h2.2, hmsg2], fun _ => rfl, by simp⟩
  · cases h
    have hspp := save_profile_spp pm name prompt (some original)
    refine ⟨?_, by simp, fun _ => ⟨rfl, hspp, ?_, ?_⟩⟩
    · constructor
      · rintro ⟨hfalse, -⟩
        cases hfalse
      · rintro (hblank | ⟨hmem, hne⟩)
        · exact absurd hblank h1
        · exact absurd ⟨(string_contains_iff _ _).mpr hmem, hne⟩ h2
    · rw [hspp]
      exact dictGet?_dictSet_self _ _ _
    · intro hne
      rw [hspp, mem_dictKeys_dictSet]
      rintro (hmem | hkey)
      · exact absurd ((mem_dictKeys_dictDel _ _ _).mp hmem).2 (by simp)
      · exact hne hkey.symm

/-- Witness for edit_prompt_profile_correct: editing "A" into "B" when
"A" exists and "B" does not leaves the store mapping "B" to "p2" with no
"A". -/
theorem edit_prompt_profile_correct_witness :
    ((true = false ∧ "" ≠ "") ↔
      (pyStrip "B" = "" ∨
        ("B" ∈ prompt_profile_names pmA ∧ "B" ≠ "A"))) ∧
    (true = false → pmB = pmA) ∧
    (true = true →
      "" = "" ∧
      pmB.saved_prompt_profiles =
        dictSet (dictDel pmA.saved_prompt_profiles "A") "B" "p2" ∧
      dictGet? pmB.saved_prompt_profiles "B" = some "p2" ∧
      ("B" ≠ "A" → "A" ∉ dictKeys pmB.saved_prompt_profiles)) :=
  edit_prompt_profile_correct pmA "B" "p2" "A" true "" pmB (by decide)

/-- Claim C10: profile names are stored verbatim — any name with a
non-empty stripped form that is not literally among the profile names is
accepted and appended as an exact key, preserving all existing keys. -/
theorem add_prompt_profile_verbatim (pm : PromptManager)
    (name prompt : String)
    (h1 : pyStrip name ≠ "") (h2 : name ∉ prompt_profile_names pm) :
    (add_prompt_profile pm name prompt).1.1 = true ∧
    dictGet? (add_prompt_profile pm name prompt).2.saved_prompt_profiles
      name = some prompt ∧
    dictKeys (add_prompt_profile pm name prompt).2.saved_prompt_profiles =
      dictKeys pm.saved_prompt_profiles ++ [name] := by
  have hnc : dictContains pm.saved_prompt_profiles name = false := by
    rw [← Bool.not_eq_true, dictContains_iff]
    intro hk
    exact h2 ((mem_prompt_profile_names pm name).mpr (Or.inr hk))
  unfold add_prompt_profile
  rw [if_neg h1,
    if_neg (fun hcon => h2 ((string_contains_iff _ _).mp hcon))]
  refine ⟨rfl, ?_, ?_⟩
  · rw [save_profile_spp]
    exact dictGet?_dictSet_self _ _ _
  · rw [save_profile_spp]
    exact dictKeys_dictSet_of_not_contains _ _ _ hnc

/-- Witness for add_prompt_profile_verbatim: with "A" saved, adding the
distinct name " A " (same stripped form) succeeds, so "A" and " A "
coexist. -/
theorem add_prompt_profile_verbatim_witness :
    (add_prompt_profile pmA " A " "p2").1.1 = true ∧
    dictGet?
      (add_prompt_profile pmA " A " "p2").2.saved_prompt_profiles
      " A " = some "p2" ∧
    dictKeys (add_prompt_profile pmA " A " "p2").2.saved_prompt_profiles =
      dictKeys pmA.saved_prompt_profiles ++ [" A "] :=
  add_prompt_profile_verbatim pmA " A " "p2" (by decide) (by decide)


/-! ### Dropdown synchronization (C5, C6) -/

theorem save_profile_eq_of_dropdown (pm : PromptManager) (dd : Combo)
    (h : pm.dropdown = some dd) (n p : String) (o : Option String) :
    save_profile pm n p o =
      { saved_prompt_profiles :=
          dictSet (delOpt pm.saved_prompt_profiles o) n p
        settings_entry := dictSet (delOpt pm.saved_prompt_profiles o) n p
        dropdown := some
          { values := unsaved_prompt_profile_name ::
              pySorted (dictKeys
                (dictSet (delOpt pm.saved_prompt_profiles o) n p))
            value := match o with
              | some orig => if orig = dd.value then n else dd.value
              | none => dd.value }
        emitted_events := pm.emitted_events ++ (match o with
            | some orig => if orig = dd.value then [n] else []
            | none => []) } := by
  unfold save_profile save_profiles_to_settings
    update_prompt_profile_dropdown prompt_profile_names
  rcases o with _ | orig <;>
    simp [h, delOpt] <;>
    split_ifs <;>
    simp [h, delOpt]

theorem delete_eq_of_dropdown (pm : PromptManager) (dd : Combo)
    (h : pm.dropdown = some dd) (n : String)
    (hc : dictContains pm.saved_prompt_profiles n = true) :
    delete_prompt_profile pm n =
      Except.ok
        { saved_prompt_profiles := dictDel pm.saved_prompt_profiles n
          settings_entry := dictDel pm.saved_prompt_profiles n
          dropdown := some
            { values := unsaved_prompt_profile_name ::
                pySorted (dictKeys (dictDel pm.saved_prompt_profiles n))
              value := if n = dd.value then unsaved_prompt_profile_name
                else dd.value }
          emitted_events := pm.emitted_events ++
            (if n = dd.value then [unsaved_prompt_profile_name]
              else []) } := by
  unfold delete_prompt_profile save_profiles_to_settings
    update_prompt_profile_dropdown prompt_profile_names
  rw [if_pos hc]
  split_ifs with hv <;> simp [h, hv]

/-- Claim C5: with a dropdown bound, every successful add, edit or
delete pushes the post-mutation option list to it; an edit or delete of
the currently selected option additionally re-selects the new name (for
edit) or the sentinel (for delete) and emits a selection-changed event,
while an edit or delete of an unselected profile keeps the selection and
emits nothing; add always keeps the selection. -/
theorem dropdown_sync_correct (pm : PromptManager) (dd : Combo)
    (hdd : pm.dropdown = some dd) :
    (∀ name prompt ok msg pm',
      add_prompt_profile pm name prompt = ((ok, msg), pm') → ok = true →
      pm'.dropdown =
        some { values := prompt_profile_names pm', value := dd.value } ∧
      pm'.emitted_events = pm.emitted_events) ∧
    (∀ name prompt original ok msg pm',
      edit_prompt_profile pm name prompt original = ((ok, msg), pm') →
      ok = true →
      (original = dd.value →
        pm'.dropdown =
          some { values := prompt_profile_names pm', value := name } ∧
        pm'.emitted_events = pm.emitted_events ++ [name]) ∧
      (original ≠ dd.value →
        pm'.dropdown =
          some { values := prompt_profile_names pm', value := dd.value } ∧
        pm'.emitted_events = pm.emitted_events)) ∧
    (∀ name pm',
      delete_prompt_profile pm name = Except.ok pm' →
      (name = dd.value →
        pm'.dropdown = some { values := prompt_profile_names pm'
                              value := unsaved_prompt_profile_name } ∧
        pm'.emitted_events =
          pm.emitted_events ++ [unsaved_prompt_profile_name]) ∧
      (name ≠ dd.value →
        pm'.dropdown =
          some { values := prompt_profile_names pm', value := dd.value } ∧
        pm'.emitted_events = pm.emitted_events)) := by
  refine ⟨?_, ?_, ?_⟩
  · intro name prompt ok msg pm' h hok
    unfold add_prompt_profile at h
    split_ifs at h with h1 h2 <;> cases h
    · cases hok
    · cases hok
    · rw [save_profile_eq_of_dropdown pm dd hdd name prompt none]
      simp [prompt_profile_names, save_profile_eq_of_dropdown pm dd hdd]
  · intro name prompt original ok msg pm' h hok
    simp only [edit_prompt_profile] at h
    split_ifs at h with h1 h2 <;> cases h
    · cases hok
    · cases hok
    · rw [save_profile_eq_of_dropdown pm dd hdd name prompt
        (some original)]
      constructor
      · intro hsel
        simp [prompt_profile_names,
          save_profile_eq_of_dropdown pm dd hdd, hsel]
      · intro hsel
        simp [prompt_profile_names,
          save_profile_eq_of_dropdown pm dd hdd, hsel]
  · intro name pm' h
    by_cases hc : dictContains pm.saved_prompt_profiles name = true
    · rw [delete_eq_of_dropdown pm dd hdd name hc] at h
      injection h with h
      subst h
      constructor
      · intro hsel
        simp [prompt_profile_names, hsel]
      · intro hsel
        simp [prompt_profile_names, hsel]
    · unfold delete_prompt_profile at h
      rw [if_neg (by simpa using hc)] at h
      cases h

/-- Witness for dropdown_sync_correct: deleting the selected profile
"A" re-selects the sentinel and emits a selection-changed event. -/
theorem dropdown_sync_correct_witness :
    ("A" = "A" →
      pmSelDel.dropdown = some { values := prompt_profile_names pmSelDel
                                 value := unsaved_prompt_profile_name } ∧
      pmSelDel.emitted_events =
        pmSel.emitted_events ++ [unsaved_prompt_profile_name]) ∧
    ("A" ≠ "A" →
      pmSelDel.dropdown = some { values := prompt_profile_names pmSelDel
                                 value := "A" } ∧
      pmSelDel.emitted_events = pmSel.emitted_events) :=
  (dropdown_sync_correct pmSel { values := ["(None)", "A"], value := "A" }
    rfl).2.2 "A" pmSelDel (by decide)

/-- Claim C6: every mutating operation that changes the mapping — a
successful add, a successful edit, a delete of an existing profile —
returns with the full updated mapping written to the settings store. -/
theorem mutations_persist_to_settings (pm : PromptManager) :
    (∀ name prompt ok msg pm',
      add_prompt_profile pm name prompt = ((ok, msg), pm') → ok = true →
      pm'.settings_entry = pm'.saved_prompt_profiles) ∧
    (∀ name prompt original ok msg pm',
      edit_prompt_profile pm name prompt original = ((ok, msg), pm') →
      ok = true →
      pm'.settings_entry = pm'.saved_prompt_profiles) ∧
    (∀ name pm',
      delete_prompt_profile pm name = Except.ok pm' →
      pm'.settings_entry = pm'.saved_prompt_profiles) := by
  refine ⟨?_, ?_, ?_⟩
  · intro name prompt ok msg pm' h hok
    unfold add_prompt_profile at h
    split_ifs at h with h1 h2 <;> cases h
    · cases hok
    · cases hok
    · exact save_profile_settings pm name prompt none
  · intro name prompt original ok msg pm' h hok
    simp only [edit_prompt_profile] at h
    split_ifs at h with h1 h2 <;> cases h
    · cases hok
    · cases hok
    · exact save_profile_settings pm name prompt (some original)
  · intro name pm' h
    exact delete_ok_settings pm name pm' h

/-- Witness for mutations_persist_to_settings via adding "B" to the
store holding "A". -/
theorem mutations_persist_to_settings_witness :
    pmAB.settings_entry = pmAB.saved_prompt_profiles :=
  (mutations_persist_to_settings pmA).1 "B" "p2" true "" pmAB
    (by decide) rfl

/-! ### Order lemmas for the sorted listing (C4) -/

theorem charListLe_total (as bs : List Char) :
    charListLe as bs = true ∨ charListLe bs as = true := by
  induction as generalizing bs with
  | nil => left; rfl
  | cons x xs ih =>
    cases bs with
    | nil => right; rfl
    | cons y ys =>
      simp only [charListLe]
      rcases Nat.lt_trichotomy x.toNat y.toNat with h | h | h
      · left; simp [h]
      · have h1 : ¬ x.toNat < y.toNat := by omega
        have h2 : ¬ y.toNat < x.toNat := by omega
        rcases ih ys with h3 | h3 <;> simp_all
      · have h1 : ¬ x.toNat < y.toNat := by omega
        right; simp [h, h1]

theorem charListLe_trans (as bs cs : List Char)
    (hab : charListLe as bs = true) (hbc : charListLe bs cs = true) :
    charListLe as cs = true := by
  induction as generalizing bs cs with
  | nil => rfl
  | cons x xs ih =>
    cases bs with
    | nil => simp [charListLe] at hab
    | cons y ys =>
      cases cs with
      | nil => simp [charListLe] at hbc
      | cons z zs =>
        simp only [charListLe] at hab hbc ⊢
        by_cases hxy : x.toNat < y.toNat
        · by_cases hyz : y.toNat < z.toNat
          · simp [show x.toNat < z.toNat by omega]
          · by_cases hzy : z.toNat < y.toNat
            · simp [hyz, hzy] at hbc
            · simp [show x.toNat < z.toNat by omega]
        · by_cases hyx : y.toNat < x.toNat
          · simp [hxy, hyx] at hab
          · by_cases hyz : y.toNat < z.toNat
            · simp [show x.toNat < z.toNat by omega]
            · by_cases hzy : z.toNat < y.toNat
              · simp [hyz, hzy] at hbc
              · have hxz : ¬ x.toNat < z.toNat := by omega
                have hzx : ¬ z.toNat < x.toNat := by omega
                simp only [hxy, hyx, if_false, if_neg] at hab
                simp only [hyz, hzy, if_false, if_neg] at hbc
                simp only [hxz, hzx, if_false, if_neg]
                exact ih ys zs hab hbc

theorem strLe_total (a b : String) :
    strLe a b = true ∨ strLe b a = true :=
  charListLe_total a.toList b.toList

theorem strLe_trans (a b c : String) (hab : strLe a b = true)
    (hbc : strLe b c = true) : strLe a c = true :=
  charListLe_trans a.toList b.toList c.toList hab hbc

theorem pySorted_perm (l : List String) : (pySorted l).Perm l :=
  List.perm_insertionSort _ l

theorem pySorted_sorted (l : List String) :
    List.Sorted (fun a b => strLe a b = true) (pySorted l) :=
  @List.sorted_insertionSort String (fun a b => strLe a b = true) _
    ⟨strLe_total⟩ ⟨strLe_trans⟩ l

/-! ### The listing invariant (C4) -/

theorem sentinel_mem_names (pm : PromptManager) :
    unsaved_prompt_profile_name ∈ prompt_profile_names pm :=
  List.mem_cons_self _ _

theorem storeInv_add (pm : PromptManager) (n p : String)
    (h : StoreInv pm) : StoreInv (add_prompt_profile pm n p).2 := by
  unfold add_prompt_profile
  split_ifs with h1 h2
  · exact h
  · exact h
  · have hmem : n ∉ prompt_profile_names pm := fun hm =>
      h2 ((string_contains_iff _ _).mpr hm)
    have hsent : n ≠ unsaved_prompt_profile_name := fun he => by
      rw [he] at hmem
      exact hmem (sentinel_mem_names pm)
    have hkey : n ∉ dictKeys pm.saved_prompt_profiles := fun hk =>
      hmem ((mem_prompt_profile_names _ _).mpr (Or.inr hk))
    have hnc : dictContains pm.saved_prompt_profiles n = false := by
      rw [← Bool.not_eq_true, dictContains_iff]
      exact hkey
    constructor
    · rw [save_profile_spp]
      exact nodup_dictKeys_dictSet _ _ _ h.1 hnc
    · rw [save_profile_spp, mem_dictKeys_dictSet]
      rintro (hmem' | heq)
      · exact h.2 hmem'
      · exact hsent heq.symm

theorem storeInv_edit (pm : PromptManager) (n p o : String)
    (hgood : goodOp (POp.edit n p o) = true)
    (h : StoreInv pm) : StoreInv (edit_prompt_profile pm n p o).2 := by
  simp only [edit_prompt_profile]
  split_ifs with h1 h2
  · exact h
  · exact h
  · have hnodup := nodup_dictKeys_dictDel pm.saved_prompt_profiles o h.1
    have hsentdel : unsaved_prompt_profile_name ∉
        dictKeys (dictDel pm.saved_prompt_profiles o) := fun hm =>
      h.2 ((mem_dictKeys_dictDel _ _ _).mp hm).1
    have hsent : n ≠ unsaved_prompt_profile_name := by
      by_cases heq : n = o
      · intro he
        simp only [goodOp, Bool.not_eq_true',
          Bool.and_eq_false_iff] at hgood
        rcases hgood with hg | hg
        · exact absurd (beq_iff_eq.mpr he) (by simp [hg])
        · rw [← heq] at hg
          exact absurd (beq_iff_eq.mpr he) (by simp [hg])
      · intro he
        apply h2
        refine ⟨(string_contains_iff _ _).mpr ?_, heq⟩
        rw [he]
        exact sentinel_mem_names pm
    have hnc : dictContains (dictDel pm.saved_prompt_profiles o) n
        = false := by
      by_cases heq : n = o
      · rw [heq]
        exact dictContains_dictDel_self _ _
      · have hmem : n ∉ prompt_profile_names pm := fun hm =>
          h2 ⟨(string_contains_iff _ _).mpr hm, heq⟩
        have hkey : n ∉ dictKeys pm.saved_prompt_profiles := fun hk =>
          hmem ((mem_prompt_profile_names _ _).mpr (Or.inr hk))
        rw [← Bool.not_eq_true, dictContains_iff, mem_dictKeys_dictDel]
        rintro ⟨hk, -⟩
        exact hkey hk
    constructor
    · rw [save_profile_spp]
      exact nodup_dictKeys_dictSet _ _ _ hnodup hnc
    · rw [save_profile_spp, mem_dictKeys_dictSet]
      rintro (hmem' | heq)
      · exact hsentdel hmem'
      · exact hsent heq.symm

theorem storeInv_del (pm : PromptManager) (n : String)
    (h : StoreInv pm) : StoreInv (applyOp pm (POp.del n)) := by
  simp only [applyOp]
  rcases hdel : delete_prompt_profile pm n with e | pm'
  · exact h
  · have hspp := delete_ok_spp pm n pm' hdel
    constructor
    · rw [hspp]
      exact nodup_dictKeys_dictDel _ _ h.1
    · rw [hspp]
      intro hm
      exact h.2 ((mem_dictKeys_dictDel _ _ _).mp hm).1

theorem storeInv_applyOps (ops : List POp) (pm : PromptManager)
    (hpm : StoreInv pm) (hops : ∀ op ∈ ops, goodOp op = true) :
    StoreInv (applyOps pm ops) := by
  induction ops generalizing pm with
  | nil => exact hpm
  | cons op rest ih =>
    have hop := hops op (List.mem_cons_self _ _)
    have hrest : ∀ o ∈ rest, goodOp o = true := fun o ho =>
      hops o (List.mem_cons_of_mem _ ho)
    unfold applyOps
    rw [List.foldl_cons]
    apply ih _ _ hrest
    cases op with
    | add n p => exact storeInv_add pm n p hpm
    | edit n p o => exact storeInv_edit pm n p o hop hpm
    | del n => exact storeInv_del pm n hpm

/-- Claim C4 (amended): after any finite sequence of add/edit/delete
operations from an empty store in which no edit uses the sentinel as
both the new and the original name, the listing has no duplicates and is
exactly the sentinel followed by the saved names sorted ascending, and
the sentinel is never among the saved keys.  The side condition is
forced by the counterexample: edit(sentinel, p, sentinel) stores the
sentinel as a saved profile. -/
theorem prompt_profile_listing_invariant (dropdown : Option Combo)
    (ops : List POp) (hops : ∀ op ∈ ops, goodOp op = true) :
    (prompt_profile_names (applyOps (initPM dropdown) ops)).Nodup ∧
    prompt_profile_names (applyOps (initPM dropdown) ops) =
      unsaved_prompt_profile_name ::
        pySorted (dictKeys
          (applyOps (initPM dropdown) ops).saved_prompt_profiles) ∧
    (pySorted (dictKeys
        (applyOps (initPM dropdown) ops).saved_prompt_profiles)).Perm
      (dictKeys (applyOps (initPM dropdown) ops).saved_prompt_profiles) ∧
    List.Sorted (fun a b => strLe a b = true)
      (pySorted (dictKeys
        (applyOps (initPM dropdown) ops).saved_prompt_profiles)) ∧
    unsaved_prompt_profile_name ∉
      dictKeys (applyOps (initPM dropdown) ops).saved_prompt_profiles := by
  have hinv : StoreInv (applyOps (initPM dropdown) ops) :=
    storeInv_applyOps ops _
      ⟨by simp [initPM, dictKeys], by simp [initPM, dictKeys]⟩ hops
  have hperm := pySorted_perm
    (dictKeys (applyOps (initPM dropdown) ops).saved_prompt_profiles)
  refine ⟨?_, rfl, hperm, pySorted_sorted _, hinv.2⟩
  rw [prompt_profile_names, List.nodup_cons]
  constructor
  · intro hm
    exact hinv.2 (hperm.mem_iff.mp hm)
  · exact hperm.symm.nodup hinv.1

/-- Witness for prompt_profile_listing_invariant at the single
operation add("A", "p1"). -/
theorem prompt_profile_listing_invariant_witness :
    (prompt_profile_names
      (applyOps (initPM none) [POp.add "A" "p1"])).Nodup ∧
    prompt_profile_names (applyOps (initPM none) [POp.add "A" "p1"]) =
      unsaved_prompt_profile_name ::
        pySorted (dictKeys
          (applyOps (initPM none)
            [POp.add "A" "p1"]).saved_prompt_profiles) ∧
    (pySorted (dictKeys
        (applyOps (initPM none)
          [POp.add "A" "p1"]).saved_prompt_profiles)).Perm
      (dictKeys (applyOps (initPM none)
        [POp.add "A" "p1"]).saved_prompt_profiles) ∧
    List.Sorted (fun a b => strLe a b = true)
      (pySorted (dictKeys
        (applyOps (initPM none)
          [POp.add "A" "p1"]).saved_prompt_profiles)) ∧
    unsaved_prompt_profile_name ∉
      dictKeys (applyOps (initPM none)
        [POp.add "A" "p1"]).saved_prompt_profiles :=
  prompt_profile_listing_invariant none [POp.add "A" "p1"] (by decide)

/-- Claim C4 fails as stated: the single operation
edit("(None)", "p", original="(None)") succeeds, stores the sentinel as
a saved profile and makes the listing ["(None)", "(None)"], which has a
duplicate. -/
theorem prompt_profile_listing_invariant_cex :
    prompt_profile_names (applyOps (initPM none)
        [POp.edit unsaved_prompt_profile_name "p"
          unsaved_prompt_profile_name]) =
      [unsaved_prompt_profile_name, unsaved_prompt_profile_name] ∧
    ¬ (prompt_profile_names (applyOps (initPM none)
        [POp.edit unsaved_prompt_profile_name "p"
          unsaved_prompt_profile_name])).Nodup ∧
    unsaved_prompt_profile_name ∈
      dictKeys (applyOps (initPM none)
        [POp.edit unsaved_prompt_profile_name "p"
          unsaved_prompt_profile_name]).saved_prompt_profiles := by
  decide


/-! ### Transcription job lifecycle (C7) -/

theorem run_job_fields (tr : Transcriber) (files : List String) (t0 : Int)
    (k : Nat) :
    (run_job tr files t0 k).num_tasks_done = k ∧
    (run_job tr files t0 k).num_tasks = files.length ∧
    (run_job tr files t0 k).state = JobState.running ∧
    (run_job tr files t0 k).started_at = t0 := by
  induction k with
  | zero => simp [run_job, Transcriber.start]
  | succ k ih =>
    unfold run_job at ih ⊢
    rw [Function.iterate_succ_apply']
    simp only [Transcriber.on_progress] at ih ⊢
    simp [ih.1, ih.2.1, ih.2.2.1, ih.2.2.2]

theorem done_of_running (tr : Transcriber)
    (hst : tr.state = JobState.running) (success : Bool) (now : Int) :
    tr.done success now =
      (some (now - tr.started_at),
        { tr with state := JobState.done, worker_handle := false }) := by
  unfold Transcriber.done
  rw [hst]

theorem done_of_done (tr : Transcriber)
    (hst : tr.state = JobState.done) (success : Bool) (now : Int) :
    tr.done success now = (none, tr) := by
  unfold Transcriber.done
  rw [hst]

/-- Claim C7: starting a job over n files sets total_count = n and
completed_count = 0; after k of the n progress notifications the
completed count is exactly k and never exceeds the total; after all n it
equals the total; finish(success=true) moves the job to Done, releases
the worker handle and returns the non-negative elapsed time; a second
finish call is a no-op returning none and leaving the state as is. -/
theorem transcription_job_lifecycle (tr : Transcriber)
    (files : List String) (t0 t1 : Int) (hle : t0 ≤ t1) :
    (run_job tr files t0 0).num_tasks = files.length ∧
    (run_job tr files t0 0).num_tasks_done = 0 ∧
    (∀ k, k ≤ files.length →
      (run_job tr files t0 k).num_tasks_done = k ∧
      (run_job tr files t0 k).num_tasks_done ≤
        (run_job tr files t0 k).num_tasks) ∧
    (run_job tr files t0 files.length).num_tasks_done =
      (run_job tr files t0 files.length).num_tasks ∧
    ((run_job tr files t0 files.length).done true t1).2.state =
      JobState.done ∧
    ((run_job tr files t0 files.length).done true t1).2.worker_handle =
      false ∧
    ((run_job tr files t0 files.length).done true t1).1 =
      some (t1 - t0) ∧
    (0 : Int) ≤ t1 - t0 ∧
    (∀ (success : Bool) (t2 : Int),
      ((run_job tr files t0 files.length).done true t1).2.done
          success t2 =
        (none, ((run_job tr files t0 files.length).done true t1).2)) := by
  have hf := run_job_fields tr files t0
  have hdone := done_of_running (run_job tr files t0 files.length)
    (hf files.length).2.2.1 true t1
  refine ⟨(hf 0).2.1, (hf 0).1, ?_, ?_, ?_, ?_, ?_, by omega, ?_⟩
  · intro k hk
    exact ⟨(hf k).1, by rw [(hf k).1, (hf k).2.1]; exact hk⟩
  · rw [(hf files.length).1, (hf files.length).2.1]
  · rw [hdone]
  · rw [hdone]
  · rw [hdone, (hf files.length).2.2.2]
  · intro success t2
    rw [hdone]
    exact done_of_done _ rfl success t2

/-- Witness for transcription_job_lifecycle: a three-file job started at
time 0 and finished at time 5. -/
theorem transcription_job_lifecycle_witness :
    (run_job tr0 ["f1", "f2", "f3"] 0 0).num_tasks =
      (["f1", "f2", "f3"] : List String).length ∧
    (run_job tr0 ["f1", "f2", "f3"] 0 0).num_tasks_done = 0 ∧
    (∀ k, k ≤ (["f1", "f2", "f3"] : List String).length →
      (run_job tr0 ["f1", "f2", "f3"] 0 k).num_tasks_done = k ∧
      (run_job tr0 ["f1", "f2", "f3"] 0 k).num_tasks_done ≤
        (run_job tr0 ["f1", "f2", "f3"] 0 k).num_tasks) ∧
    (run_job tr0 ["f1", "f2", "f3"] 0 3).num_tasks_done =
      (run_job tr0 ["f1", "f2", "f3"] 0 3).num_tasks ∧
    ((run_job tr0 ["f1", "f2", "f3"] 0 3).done true 5).2.state =
      JobState.done ∧
    ((run_job tr0 ["f1", "f2", "f3"] 0 3).done true 5).2.worker_handle =
      false ∧
    ((run_job tr0 ["f1", "f2", "f3"] 0 3).done true 5).1 =
      some ((5 : Int) - 0) ∧
    (0 : Int) ≤ (5 : Int) - 0 ∧
    (∀ (success : Bool) (t2 : Int),
      ((run_job tr0 ["f1", "f2", "f3"] 0 3).done true 5).2.done
          success t2 =
        (none, ((run_job tr0 ["f1", "f2", "f3"] 0 3).done true 5).2)) :=
  transcription_job_lifecycle tr0 ["f1", "f2", "f3"] 0 5 (by decide)

/-! ### Modal stack manager (C8) -/

theorem filter_id_length_le_one (l : List TrackedWindow) (L : Nat)
    (h : (l.map TrackedWindow.id).Nodup) (p : TrackedWindow → Bool)
    (hp : ∀ w, p w = true → w.id = L) :
    (l.filter p).length ≤ 1 := by
  induction l with
  | nil => simp
  | cons w l ih =>
    rw [List.map_cons, List.nodup_cons] at h
    by_cases hw : p w = true
    · rw [List.filter_cons_of_pos hw]
      have hnil : l.filter p = [] := by
        rw [List.filter_eq_nil_iff]
        intro x hx hpx
        apply h.1
        have hxid : x.id ∈ List.map TrackedWindow.id l :=
          List.mem_map_of_mem TrackedWindow.id hx
        rw [hp x hpx, ← hp w hw] at hxid
        exact hxid
      simp [hnil]
    · rw [List.filter_cons_of_neg (by simpa using hw)]
      exact ih h.2

theorem reconcile_modal_count (m : ModalWindowManager)
    (world : WindowWorld) (h : (world.map TrackedWindow.id).Nodup) :
    tracked_modal_count (reconcile m world).1 (reconcile m world).2
      ≤ 1 := by
  unfold tracked_modal_count reconcile
  simp only [List.filter_map, List.length_map]
  apply filter_id_length_le_one world
    ((live_tracked m world).getLast?.getD 0) h
  intro w hw
  by_cases hc : w.id ∈ live_tracked m world
  · simp [Function.comp, hc] at hw
    rw [hw]
    rfl
  · simp [Function.comp, hc] at hw

theorem reconcile_modal_iff (m : ModalWindowManager)
    (world : WindowWorld) :
    ∀ w ∈ (reconcile m world).2,
      (reconcile m world).1.tracked.contains w.id = true →
      (w.is_modal = true ↔ most_recent_open m world = some w.id) := by
  unfold reconcile most_recent_open
  intro w hw hc
  simp only [List.mem_map] at hw
  obtain ⟨w0, hw0, rfl⟩ := hw
  by_cases h : w0.id ∈ live_tracked m world
  · simp [h]
  · simp [h] at hc

theorem reconcile_no_tracked (world : WindowWorld) :
    reconcile { tracked := [] } world = ({ tracked := [] }, world) := by
  unfold reconcile live_tracked
  simp

theorem close_window_idem (world : WindowWorld) (i : Nat) :
    close_window (close_window world i) i = close_window world i := by
  unfold close_window
  rw [List.map_map]
  apply List.map_congr_left
  intro w hw
  by_cases h : (w.id == i) = true <;> simp [Function.comp, h]

/-- Claim C8: after a reconcile, at most one tracked window is modal and
a tracked window is modal exactly when it is the most-recently-tracked
still-open one; reconciling with zero tracked windows changes nothing;
closing an already-closed window changes nothing; and in the W1/W2/W3
scenario, closing W2 leaves W3 the active modal and then closing W3
leaves W1 the active modal. -/
theorem modal_stack_correct :
    (∀ (m : ModalWindowManager) (world : WindowWorld),
      (world.map TrackedWindow.id).Nodup →
      tracked_modal_count (reconcile m world).1 (reconcile m world).2
        ≤ 1) ∧
    (∀ (m : ModalWindowManager) (world : WindowWorld),
      ∀ w ∈ (reconcile m world).2,
        (reconcile m world).1.tracked.contains w.id = true →
        (w.is_modal = true ↔ most_recent_open m world = some w.id)) ∧
    (∀ world : WindowWorld,
      reconcile { tracked := [] } world = ({ tracked := [] }, world)) ∧
    (∀ (world : WindowWorld) (i : Nat),
      close_window (close_window world i) i = close_window world i) ∧
    (most_recent_open mwm3 (close_window world3 2) = some 3 ∧
      (reconcile mwm3 (close_window world3 2)).2 =
        [{ id := 1, is_open := true, is_modal := false },
         { id := 2, is_open := false, is_modal := false },
         { id := 3, is_open := true, is_modal := true }] ∧
      most_recent_open (reconcile mwm3 (close_window world3 2)).1
        (close_window (reconcile mwm3 (close_window world3 2)).2 3) =
        some 1) :=
  ⟨reconcile_modal_count, reconcile_modal_iff, reconcile_no_tracked,
    close_window_idem, by decide, by decide, by decide⟩

/-- Witness for modal_stack_correct at the three-window scenario
state. -/
theorem modal_stack_correct_witness :
    tracked_modal_count (reconcile mwm3 world3).1
      (reconcile mwm3 world3).2 ≤ 1 :=
  modal_stack_correct.1 mwm3 world3 (by decide)

end WhisperGUI
